import Mathlib

/-!
Shallow embedding of the TpsItemOptimizer core (src/Optimizer.h, src/Optimizer.cpp).

The core is a feedback-controlled rate limiter for per-frame entity processing:
an admission gate (ItemActorTickHook), a staleness sweep run at frame
boundaries, a bang-bang feedback controller (LevelTickHook), lifecycle
eviction hooks (ActorDespawnHook / ActorRemoveHook), and enable/disable
lifecycle operations over a bundle of process-wide mutable state.

Machine integers: C++ `int` fields are modelled as `Int` (their values stay
far from 32-bit overflow in all claims), C++ `std::uint64_t` ticks as `Nat`
with explicit wrap-around where the code performs unsigned subtraction or an
int-to-uint64 cast, and `size_t` counters as `Nat`.
-/

namespace TpsOpt

/-- Configuration bundle, from `struct Config` in src/Optimizer.h with its
field initializers as defaults. -/
structure Config where
  version : Int := 1
  enabled : Bool := true
  debug : Bool := false
  targetTickMs : Int := 50
  maxPerTickStep : Int := 2
  cooldownTicksStep : Int := 1
  cleanupIntervalTicks : Int := 100
  maxExpiredAge : Int := 600
  initialMapReserve : Int := 500
deriving DecidableEq, Repr

/-- The load-time normalization applied by `loadConfig` (Optimizer.cpp lines
52-57) to whatever value bundle the external config parser produced. -/
def normalizeConfig (c : Config) : Config :=
  { c with
    cleanupIntervalTicks :=
      if c.cleanupIntervalTicks < 1 then 100 else c.cleanupIntervalTicks
    maxExpiredAge := if c.maxExpiredAge < 1 then 600 else c.maxExpiredAge
    initialMapReserve :=
      if c.initialMapReserve = 0 then 500 else c.initialMapReserve
    maxPerTickStep := if c.maxPerTickStep < 1 then 1 else c.maxPerTickStep
    cooldownTicksStep :=
      if c.cooldownTicksStep < 1 then 1 else c.cooldownTicksStep
    targetTickMs := if c.targetTickMs < 1 then 50 else c.targetTickMs }

/-- Unsigned 64-bit subtraction `a - b` as the C++ code performs it on tick
values (`currentTick - it->second`). -/
def u64sub (a b : Nat) : Nat := (a % 2 ^ 64 + 2 ^ 64 - b % 2 ^ 64) % 2 ^ 64

/-- `static_cast<std::uint64_t>` of a C++ `int` (two's-complement wrap). -/
def intToU64 (i : Int) : Nat := (i % (2 ^ 64 : Int)).toNat

/-- The mutable core state: the timestamp store `lastItemTick` (modelled as
an association list EntityId -> last tick), the frame state, the sweep
cadence counter, the controller state and the telemetry counters
(Optimizer.cpp lines 24-38). -/
structure OptState where
  lastItemTick : List (Nat × Nat)
  processedThisTick : Int
  lastTickId : Nat
  cleanupCounter : Int
  dynMaxPerTick : Int
  dynCooldownTicks : Int
  totalProcessed : Nat
  totalCooldownSkipped : Nat
  totalThrottleSkipped : Nat
  totalDespawnCleaned : Nat
  totalExpiredCleaned : Nat
deriving DecidableEq, Repr

/-- The static initializers of the core state (Optimizer.cpp lines 24-38):
empty store, zeroed frame state and counters, dynMaxPerTick = 20,
dynCooldownTicks = 2. -/
def initState : OptState :=
  { lastItemTick := []
    processedThisTick := 0
    lastTickId := 0
    cleanupCounter := 0
    dynMaxPerTick := 20
    dynCooldownTicks := 2
    totalProcessed := 0
    totalCooldownSkipped := 0
    totalThrottleSkipped := 0
    totalDespawnCleaned := 0
    totalExpiredCleaned := 0 }

/-- Store lookup: the value associated to `id`, if present. -/
def lookupStore (id : Nat) : List (Nat × Nat) → Option Nat
  | [] => none
  | (k, v) :: rest => if k = id then some v else lookupStore id rest

/-- `unordered_map::emplace(id, v)`: returns the store after the call, the
`inserted` flag, and the value the returned iterator points at (the existing
value when the key was present, else `v`). -/
def emplaceStore (id v : Nat) : List (Nat × Nat) → List (Nat × Nat) × Bool × Nat
  | [] => ([(id, v)], true, v)
  | (k, w) :: rest =>
    if k = id then ((k, w) :: rest, false, w)
    else
      let r := emplaceStore id v rest
      ((k, w) :: r.1, r.2.1, r.2.2)

/-- `it->second = v` on the iterator obtained for key `id`. -/
def updateStore (id v : Nat) : List (Nat × Nat) → List (Nat × Nat)
  | [] => []
  | (k, w) :: rest =>
    if k = id then (k, v) :: rest else (k, w) :: updateStore id v rest

/-- `unordered_map::erase(id)`. -/
def eraseStore (id : Nat) : List (Nat × Nat) → List (Nat × Nat)
  | [] => []
  | (k, w) :: rest =>
    if k = id then rest else (k, w) :: eraseStore id rest

/-- The staleness sweep's surviving entries: the loop at Optimizer.cpp lines
169-178 erases exactly the entries with `currentTick - lastTick > maxAge`
(unsigned arithmetic). -/
def sweepStore (currentTick maxAge : Nat) (st : List (Nat × Nat)) :
    List (Nat × Nat) :=
  st.filter (fun p => decide (u64sub currentTick p.2 ≤ maxAge))

/-- Number of entries the staleness sweep erases (each erase also increments
`totalExpiredCleaned`). -/
def sweepRemoved (currentTick maxAge : Nat) (st : List (Nat × Nat)) : Nat :=
  (st.filter (fun p => decide (maxAge < u64sub currentTick p.2))).length

/-- Frame-boundary handling (Optimizer.cpp lines 163-180): on observing a new
tick id, record it, reset `processedThisTick`, advance the sweep cadence
counter, and when the cadence reaches `cleanupIntervalTicks` reset it and run
the staleness sweep. -/
def frameBoundary (cfg : Config) (s : OptState) (currentTick : Nat) : OptState :=
  let s1 := { s with lastTickId := currentTick, processedThisTick := 0 }
  let cc := s1.cleanupCounter + 1
  if cfg.cleanupIntervalTicks ≤ cc then
    { s1 with
      cleanupCounter := 0
      lastItemTick :=
        sweepStore currentTick (intToU64 cfg.maxExpiredAge) s1.lastItemTick
      totalExpiredCleaned :=
        s1.totalExpiredCleaned +
          sweepRemoved currentTick (intToU64 cfg.maxExpiredAge) s1.lastItemTick }
  else { s1 with cleanupCounter := cc }

/-- The state the gate decides against: frame-boundary handling runs only
when the call's tick differs from the last observed one. -/
def afterBoundary (cfg : Config) (s : OptState) (currentTick : Nat) : OptState :=
  if currentTick ≠ s.lastTickId then frameBoundary cfg s currentTick else s

/-- Admission decisions. `Bypass` models the pass-through return of
`origin(region)` taken when the feature is disabled (or the actor is not an
item); the claims concern enabled calls on item actors. -/
inductive Decision where
  | Allow
  | DenyThrottle
  | DenyCooldown
  | Bypass
deriving DecidableEq, Repr

/-- Decision logic of ItemActorTickHook after frame-boundary handling
(Optimizer.cpp lines 182-200): quota check first, then emplace and cooldown
check, else allow (bump the quota counter, update the entry to the current
tick, bump the processed counter). -/
def gateCore (b : OptState) (id : Nat) (currentTick : Nat) :
    Decision × OptState :=
  if b.dynMaxPerTick ≤ b.processedThisTick then
    (Decision.DenyThrottle,
      { b with totalThrottleSkipped := b.totalThrottleSkipped + 1 })
  else
    let e := emplaceStore id 0 b.lastItemTick
    if e.2.1 = false ∧ u64sub currentTick e.2.2 < intToU64 b.dynCooldownTicks then
      (Decision.DenyCooldown,
        { b with
          lastItemTick := e.1
          totalCooldownSkipped := b.totalCooldownSkipped + 1 })
    else
      (Decision.Allow,
        { b with
          lastItemTick := updateStore id currentTick e.1
          processedThisTick := b.processedThisTick + 1
          totalProcessed := b.totalProcessed + 1 })

/-- One admission-gate call (ItemActorTickHook, Optimizer.cpp lines 147-201)
for an item actor with unique id `id` at server tick `currentTick`. -/
def gate (cfg : Config) (s : OptState) (id : Nat) (currentTick : Nat) :
    Decision × OptState :=
  if cfg.enabled = false then (Decision.Bypass, s)
  else gateCore (afterBoundary cfg s currentTick) id currentTick

/-- A run of gate calls all carrying the same `currentTick`, in host order. -/
def gateRun (cfg : Config) (s : OptState) (ids : List Nat) (t : Nat) :
    List Decision × OptState :=
  match ids with
  | [] => ([], s)
  | id :: rest =>
    let r := gate cfg s id t
    let rr := gateRun cfg r.2 rest t
    (r.1 :: rr.1, rr.2)

/-- Frame-end feedback controller (LevelTickHook, Optimizer.cpp lines
204-229): no state change while disabled; over budget tightens quota
(floor 8) and cooldown (ceiling 10), otherwise loosens quota (ceiling 200)
and cooldown (floor 1). -/
def levelTick (cfg : Config) (s : OptState) (elapsed : Int) : OptState :=
  if cfg.enabled = false then s
  else if cfg.targetTickMs < elapsed then
    { s with
      dynMaxPerTick := max 8 (s.dynMaxPerTick - cfg.maxPerTickStep)
      dynCooldownTicks := min 10 (s.dynCooldownTicks + cfg.cooldownTicksStep) }
  else
    { s with
      dynMaxPerTick := min 200 (s.dynMaxPerTick + cfg.maxPerTickStep)
      dynCooldownTicks := max 1 (s.dynCooldownTicks - cfg.cooldownTicksStep) }

/-- `Optimizer::enable` (Optimizer.cpp lines 121-131): initializes the
controller state from the configuration steps. -/
def enableOp (cfg : Config) (s : OptState) : OptState :=
  { s with
    dynMaxPerTick := cfg.maxPerTickStep * 10
    dynCooldownTicks := cfg.cooldownTicksStep * 2 }

/-- `Optimizer::disable` (Optimizer.cpp lines 133-142): clears the store and
zeroes the frame state, the sweep cadence counter and the telemetry counters
(resetStats). -/
def disableOp (s : OptState) : OptState :=
  { s with
    lastItemTick := []
    processedThisTick := 0
    lastTickId := 0
    cleanupCounter := 0
    totalProcessed := 0
    totalCooldownSkipped := 0
    totalThrottleSkipped := 0
    totalDespawnCleaned := 0
    totalExpiredCleaned := 0 }

/-- ActorDespawnHook / ActorRemoveHook (Optimizer.cpp lines 232-260): while
enabled, erase the actor's entry and count the eviction if one was present. -/
def despawnOp (cfg : Config) (s : OptState) (id : Nat) : OptState :=
  if cfg.enabled then
    if (lookupStore id s.lastItemTick).isSome then
      { s with
        lastItemTick := eraseStore id s.lastItemTick
        totalDespawnCleaned := s.totalDespawnCleaned + 1 }
    else s
  else s

/-- States reachable from the static initializers by any sequence of
lifecycle operations, gate calls, despawn notifications and frame-end
controller calls under a fixed configuration. -/
inductive Reachable (cfg : Config) : OptState → Prop where
  | init : Reachable cfg initState
  | enable {s} : Reachable cfg s → Reachable cfg (enableOp cfg s)
  | disable {s} : Reachable cfg s → Reachable cfg (disableOp s)
  | gate {s} (id t : Nat) : Reachable cfg s → Reachable cfg (gate cfg s id t).2
  | despawn {s} (id : Nat) : Reachable cfg s → Reachable cfg (despawnOp cfg s id)
  | levelTick {s} (elapsed : Int) :
      Reachable cfg s → Reachable cfg (levelTick cfg s elapsed)

/-! ### Arithmetic lemmas about the machine-integer embedding -/

theorem u64sub_eq_sub (a b : Nat) (hb : b ≤ a) (ha : a < 2 ^ 64) :
    u64sub a b = a - b := by
  have hb2 : b < 2 ^ 64 := lt_of_le_of_lt hb ha
  unfold u64sub
  rw [Nat.mod_eq_of_lt ha, Nat.mod_eq_of_lt hb2]
  have h : a + 2 ^ 64 - b = a - b + 2 ^ 64 := by omega
  rw [h, Nat.add_mod_right, Nat.mod_eq_of_lt (by omega)]

theorem intToU64_eq_toNat (i : Int) (h0 : 0 ≤ i) (h1 : i < 2 ^ 64) :
    intToU64 i = i.toNat := by
  unfold intToU64
  rw [Int.emod_eq_of_lt h0 h1]

/-! ### Store lemmas -/

theorem emplaceStore_of_lookup_some (id v T : Nat) (st : List (Nat × Nat))
    (h : lookupStore id st = some T) : emplaceStore id v st = (st, false, T) := by
  induction st with
  | nil => simp [lookupStore] at h
  | cons p rest ih =>
    obtain ⟨k, w⟩ := p
    by_cases hk : k = id
    · simp [lookupStore, hk] at h
      simp [emplaceStore, hk, h]
    · simp [lookupStore, hk] at h
      simp [emplaceStore, hk, ih h]

theorem emplaceStore_of_lookup_none (id v : Nat) (st : List (Nat × Nat))
    (h : lookupStore id st = none) :
    emplaceStore id v st = (st ++ [(id, v)], true, v) := by
  induction st with
  | nil => simp [emplaceStore]
  | cons p rest ih =>
    obtain ⟨k, w⟩ := p
    by_cases hk : k = id
    · simp [lookupStore, hk] at h
    · simp [lookupStore, hk] at h
      simp [emplaceStore, hk, ih h]

theorem lookupStore_append_self (id v : Nat) (st : List (Nat × Nat))
    (h : lookupStore id st = none) :
    lookupStore id (st ++ [(id, v)]) = some v := by
  induction st with
  | nil => simp [lookupStore]
  | cons p rest ih =>
    obtain ⟨k, w⟩ := p
    by_cases hk : k = id
    · simp [lookupStore, hk] at h
    · simp [lookupStore, hk] at h ⊢
      exact ih h

theorem updateStore_append_self (id v w : Nat) (st : List (Nat × Nat))
    (h : lookupStore id st = none) :
    updateStore id v (st ++ [(id, w)]) = st ++ [(id, v)] := by
  induction st with
  | nil => simp [updateStore]
  | cons p rest ih =>
    obtain ⟨k, u⟩ := p
    by_cases hk : k = id
    · simp [lookupStore, hk] at h
    · simp [lookupStore, hk] at h
      simp [updateStore, hk, ih h]

theorem lookupStore_filter_none (id : Nat) (f : Nat × Nat → Bool)
    (st : List (Nat × Nat)) (h : lookupStore id st = none) :
    lookupStore id (st.filter f) = none := by
  induction st with
  | nil => simp [lookupStore]
  | cons p rest ih =>
    obtain ⟨k, w⟩ := p
    by_cases hk : k = id
    · simp [lookupStore, hk] at h
    · simp [lookupStore, hk] at h
      by_cases hf : f (k, w)
      · simp [List.filter_cons, hf, lookupStore, hk]
        exact ih h
      · simp [List.filter_cons, hf]
        exact ih h

theorem lookupStore_eq_none_of_not_mem (id : Nat) (st : List (Nat × Nat))
    (h : id ∉ st.map Prod.fst) : lookupStore id st = none := by
  induction st with
  | nil => rfl
  | cons p rest ih =>
    obtain ⟨k, w⟩ := p
    simp only [List.map_cons, List.mem_cons] at h
    push_neg at h
    simp only [lookupStore, if_neg (fun he : k = id => h.1 he.symm)]
    exact ih h.2

theorem lookupStore_eraseStore_self (id : Nat) (st : List (Nat × Nat))
    (h : (st.map Prod.fst).Nodup) :
    lookupStore id (eraseStore id st) = none := by
  induction st with
  | nil => rfl
  | cons p rest ih =>
    obtain ⟨k, w⟩ := p
    simp only [List.map_cons, List.nodup_cons] at h
    by_cases hk : k = id
    · subst hk
      simp only [eraseStore, if_pos rfl]
      exact lookupStore_eq_none_of_not_mem _ _ h.1
    · simp only [eraseStore, if_neg hk, lookupStore, if_neg hk]
      exact ih h.2

/-! ### Gate lemmas -/

/-- A gate call within an already-observed frame whose quota is exhausted:
exact result of ItemActorTickHook lines 182-185. -/
theorem gate_throttle_eq (cfg : Config) (s : OptState) (id t : Nat)
    (h1 : cfg.enabled = true) (h2 : s.lastTickId = t)
    (h3 : s.dynMaxPerTick ≤ s.processedThisTick) :
    gate cfg s id t =
      (Decision.DenyThrottle,
        { s with totalThrottleSkipped := s.totalThrottleSkipped + 1 }) := by
  simp [gate, afterBoundary, gateCore, h1, h2, h3]

theorem frameBoundary_dynMax (cfg : Config) (s : OptState) (t : Nat) :
    (frameBoundary cfg s t).dynMaxPerTick = s.dynMaxPerTick := by
  unfold frameBoundary
  dsimp only
  split <;> rfl

theorem frameBoundary_dynCooldown (cfg : Config) (s : OptState) (t : Nat) :
    (frameBoundary cfg s t).dynCooldownTicks = s.dynCooldownTicks := by
  unfold frameBoundary
  dsimp only
  split <;> rfl

theorem afterBoundary_dynMax (cfg : Config) (s : OptState) (t : Nat) :
    (afterBoundary cfg s t).dynMaxPerTick = s.dynMaxPerTick := by
  unfold afterBoundary
  split
  · exact frameBoundary_dynMax cfg s t
  · rfl

theorem afterBoundary_dynCooldown (cfg : Config) (s : OptState) (t : Nat) :
    (afterBoundary cfg s t).dynCooldownTicks = s.dynCooldownTicks := by
  unfold afterBoundary
  split
  · exact frameBoundary_dynCooldown cfg s t
  · rfl

theorem gateCore_dynMax (b : OptState) (id t : Nat) :
    (gateCore b id t).2.dynMaxPerTick = b.dynMaxPerTick := by
  unfold gateCore
  dsimp only
  split
  · rfl
  · split <;> rfl

theorem gateCore_dynCooldown (b : OptState) (id t : Nat) :
    (gateCore b id t).2.dynCooldownTicks = b.dynCooldownTicks := by
  unfold gateCore
  dsimp only
  split
  · rfl
  · split <;> rfl

theorem gate_dynMax (cfg : Config) (s : OptState) (id t : Nat) :
    (gate cfg s id t).2.dynMaxPerTick = s.dynMaxPerTick := by
  unfold gate
  split
  · rfl
  · rw [gateCore_dynMax, afterBoundary_dynMax]

theorem gate_dynCooldown (cfg : Config) (s : OptState) (id t : Nat) :
    (gate cfg s id t).2.dynCooldownTicks = s.dynCooldownTicks := by
  unfold gate
  split
  · rfl
  · rw [gateCore_dynCooldown, afterBoundary_dynCooldown]

theorem despawnOp_dynMax (cfg : Config) (s : OptState) (id : Nat) :
    (despawnOp cfg s id).dynMaxPerTick = s.dynMaxPerTick := by
  unfold despawnOp
  split
  · split <;> rfl
  · rfl

theorem despawnOp_dynCooldown (cfg : Config) (s : OptState) (id : Nat) :
    (despawnOp cfg s id).dynCooldownTicks = s.dynCooldownTicks := by
  unfold despawnOp
  split
  · split <;> rfl
  · rfl

/-! ### Shared concrete objects for witnesses -/

/-- The default configuration (all struct initializers of `Config`). -/
def cfg0 : Config := {}

def c1s : OptState := { initState with lastTickId := 5, processedThisTick := 20 }

/-! ### The claims -/

/-- Claim C1: within a single frame (a run of gate calls all carrying the
same currentTick), once the number of allowed calls has reached
dynMaxPerTick, every subsequent gate call in that frame returns DenyThrottle
regardless of entity identity, increments the throttle-skipped counter, and
leaves the timestamp store (and everything else but that counter) unchanged. -/
theorem c1_throttle_saturation (cfg : Config) (s : OptState) (ids : List Nat)
    (t : Nat) (h1 : cfg.enabled = true) (h2 : s.lastTickId = t)
    (h3 : s.dynMaxPerTick ≤ s.processedThisTick) :
    (gateRun cfg s ids t).1 = ids.map (fun _ => Decision.DenyThrottle) ∧
    (gateRun cfg s ids t).2 =
      { s with totalThrottleSkipped := s.totalThrottleSkipped + ids.length } := by
  induction ids generalizing s with
  | nil => exact ⟨rfl, rfl⟩
  | cons id rest ih =>
    have hg := gate_throttle_eq cfg s id t h1 h2 h3
    have ih1 := ih { s with totalThrottleSkipped := s.totalThrottleSkipped + 1 }
      h2 h3
    constructor
    · simp only [gateRun, hg, List.map, ih1.1]
    · simp only [gateRun, hg, ih1.2, List.length_cons]
      have harith : s.totalThrottleSkipped + 1 + rest.length =
          s.totalThrottleSkipped + (rest.length + 1) := by omega
      rw [harith]

/-- Witness for C1 at a concrete saturated state: both calls of the run are
DenyThrottle. -/
theorem c1_throttle_saturation_w :
    cfg0.enabled = true ∧ c1s.lastTickId = 5 ∧
    c1s.dynMaxPerTick ≤ c1s.processedThisTick ∧
    (gateRun cfg0 c1s [3, 4] 5).1 =
      [Decision.DenyThrottle, Decision.DenyThrottle] :=
  ⟨rfl, rfl, by decide, by
    have h := c1_throttle_saturation cfg0 c1s [3, 4] 5 rfl rfl (by decide)
    simpa using h.1⟩

def c2cex : OptState :=
  { initState with
      lastItemTick := [(1, 100)]
      lastTickId := 100
      processedThisTick := 20 }

/-- Counterexample to C2 as stated: entity 1 was allowed at tick 100 (stored
timestamp 100), the cooldown is 2 and a call at tick 100 has age 0 < 2, yet
with the per-frame quota exhausted the gate returns DenyThrottle, not
DenyCooldown — the quota check fires before the cooldown check. -/
theorem c2_cooldown_quota_cex :
    lookupStore 1 c2cex.lastItemTick = some 100 ∧
    ((100 - 100 : Nat) : Int) < c2cex.dynCooldownTicks ∧
    c2cex.dynMaxPerTick ≤ c2cex.processedThisTick ∧
    (gate cfg0 c2cex 1 100).1 = Decision.DenyThrottle ∧
    ¬(gate cfg0 c2cex 1 100).1 = Decision.DenyCooldown := by
  refine ⟨rfl, by decide, by decide, ?_, ?_⟩ <;> decide

/-- Claim C2 (amended): for an entity whose entry survives to the gate's
decision point with stored timestamp T, a call at tick T2 whose per-frame
quota is not yet exhausted (after frame-boundary processing) returns
DenyCooldown when T2 - T < dynCooldownTicks, incrementing only the
cooldown-skipped counter and leaving the store untouched, and returns Allow
when T2 - T >= dynCooldownTicks, setting the stored timestamp to T2 and
incrementing processedThisTick and the processed counter.  (As originally
stated — without the quota proviso on the DenyCooldown branch — the claim is
refuted by c2_cooldown_quota_cex.) -/
theorem c2_cooldown_allow (cfg : Config) (s : OptState) (id t2 T : Nat)
    (h1 : cfg.enabled = true)
    (h2 : lookupStore id (afterBoundary cfg s t2).lastItemTick = some T)
    (h3 : (afterBoundary cfg s t2).processedThisTick <
      (afterBoundary cfg s t2).dynMaxPerTick)
    (h4 : T ≤ t2) (h5 : t2 < 2 ^ 64)
    (h6 : 0 ≤ (afterBoundary cfg s t2).dynCooldownTicks)
    (h7 : (afterBoundary cfg s t2).dynCooldownTicks < 2 ^ 64) :
    (((t2 - T : Nat) : Int) < (afterBoundary cfg s t2).dynCooldownTicks →
      gate cfg s id t2 =
        (Decision.DenyCooldown,
          { afterBoundary cfg s t2 with
            totalCooldownSkipped :=
              (afterBoundary cfg s t2).totalCooldownSkipped + 1 })) ∧
    ((afterBoundary cfg s t2).dynCooldownTicks ≤ ((t2 - T : Nat) : Int) →
      gate cfg s id t2 =
        (Decision.Allow,
          { afterBoundary cfg s t2 with
            lastItemTick :=
              updateStore id t2 (afterBoundary cfg s t2).lastItemTick
            processedThisTick := (afterBoundary cfg s t2).processedThisTick + 1
            totalProcessed := (afterBoundary cfg s t2).totalProcessed + 1 })) := by
  have hg : gate cfg s id t2 = gateCore (afterBoundary cfg s t2) id t2 := by
    simp [gate, h1]
  have hemp := emplaceStore_of_lookup_some id 0 T
    (afterBoundary cfg s t2).lastItemTick h2
  have hnle : ¬((afterBoundary cfg s t2).dynMaxPerTick ≤
      (afterBoundary cfg s t2).processedThisTick) := not_le.mpr h3
  have hu : u64sub t2 T = t2 - T := u64sub_eq_sub t2 T h4 h5
  have hi : intToU64 (afterBoundary cfg s t2).dynCooldownTicks =
      (afterBoundary cfg s t2).dynCooldownTicks.toNat :=
    intToU64_eq_toNat _ h6 h7
  constructor
  · intro hlt
    have hlt2 : u64sub t2 T < intToU64 (afterBoundary cfg s t2).dynCooldownTicks := by
      rw [hu, hi]
      exact Int.lt_toNat.mpr hlt
    rw [hg]
    simp only [gateCore, hemp, if_neg hnle]
    rw [if_pos ⟨trivial, hlt2⟩]
  · intro hge
    have hge2 : ¬(u64sub t2 T < intToU64 (afterBoundary cfg s t2).dynCooldownTicks) := by
      rw [hu, hi]
      intro hc
      exact absurd (Int.lt_toNat.mp hc) (not_lt.mpr hge)
    rw [hg]
    simp only [gateCore, hemp, if_neg hnle]
    rw [if_neg (fun hc => hge2 hc.2)]

def c2s : OptState :=
  { initState with lastItemTick := [(1, 100)], lastTickId := 102 }

/-- Witness for the amended C2 at a concrete state: entity 1 stored at tick
100, cooldown 2, call at tick 102 (age 2 >= 2, quota free) is an Allow that
updates the stored timestamp to 102. -/
theorem c2_cooldown_allow_w :
    cfg0.enabled = true ∧
    lookupStore 1 (afterBoundary cfg0 c2s 102).lastItemTick = some 100 ∧
    (afterBoundary cfg0 c2s 102).processedThisTick <
      (afterBoundary cfg0 c2s 102).dynMaxPerTick ∧
    (gate cfg0 c2s 1 102).1 = Decision.Allow ∧
    lookupStore 1 (gate cfg0 c2s 1 102).2.lastItemTick = some 102 := by
  have h := c2_cooldown_allow cfg0 c2s 1 102 100 rfl (by decide) (by decide)
    (by decide) (by decide) (by decide) (by decide)
  have ha := h.2 (by decide)
  refine ⟨rfl, by decide, by decide, by rw [ha], ?_⟩
  rw [ha]
  rfl

def c3cex : OptState :=
  { initState with lastTickId := 5, processedThisTick := 10, dynMaxPerTick := 10 }

/-- Counterexample to C3 as stated: entity 99 is absent from the store and
the call at tick 5 is denied by the per-frame quota; the store records
nothing about 99 — the quota check returns before the placeholder emplace is
reached. -/
theorem c3_placeholder_cex :
    lookupStore 99 c3cex.lastItemTick = none ∧
    (gate cfg0 c3cex 99 5).1 = Decision.DenyThrottle ∧
    lookupStore 99 (gate cfg0 c3cex 99 5).2.lastItemTick = none := by
  decide

/-- Claim C3 (amended): for an entity id absent from the store, a gate call
for that id records the id only when the call passes the per-frame quota
check: such a call inserts the placeholder-0 entry and, being an Allow,
immediately overwrites it with the current tick.  A call denied by the quota
(DenyThrottle) leaves the store unchanged, so the id is NOT recorded and
cooldown accounting does not start at first sight when that first attempt is
itself denied by quota (refuted as originally stated by
c3_placeholder_cex). -/
theorem c3_absent_insert (cfg : Config) (s : OptState) (id t : Nat)
    (h1 : cfg.enabled = true)
    (h2 : lookupStore id (afterBoundary cfg s t).lastItemTick = none) :
    ((afterBoundary cfg s t).dynMaxPerTick ≤
        (afterBoundary cfg s t).processedThisTick →
      (gate cfg s id t).1 = Decision.DenyThrottle ∧
      (gate cfg s id t).2.lastItemTick = (afterBoundary cfg s t).lastItemTick ∧
      lookupStore id (gate cfg s id t).2.lastItemTick = none) ∧
    ((afterBoundary cfg s t).processedThisTick <
        (afterBoundary cfg s t).dynMaxPerTick →
      (gate cfg s id t).1 = Decision.Allow ∧
      lookupStore id (gate cfg s id t).2.lastItemTick = some t) := by
  have hg : gate cfg s id t = gateCore (afterBoundary cfg s t) id t := by
    simp [gate, h1]
  constructor
  · intro hle
    rw [hg]
    simp only [gateCore, if_pos hle]
    refine ⟨?_, ?_, h2⟩ <;> trivial
  · intro hlt
    have hnle := not_le.mpr hlt
    have hemp := emplaceStore_of_lookup_none id 0
      (afterBoundary cfg s t).lastItemTick h2
    rw [hg]
    simp only [gateCore, hemp, if_neg hnle]
    simp [updateStore_append_self id t 0 _ h2, lookupStore_append_self id t _ h2]

def c3s : OptState := { initState with lastTickId := 7 }

/-- Witness for the amended C3: a first-sight call that passes the quota is
an Allow and records the entity at the current tick. -/
theorem c3_absent_insert_w :
    cfg0.enabled = true ∧
    lookupStore 42 (afterBoundary cfg0 c3s 7).lastItemTick = none ∧
    (gate cfg0 c3s 42 7).1 = Decision.Allow ∧
    lookupStore 42 (gate cfg0 c3s 42 7).2.lastItemTick = some 7 := by
  have h := c3_absent_insert cfg0 c3s 42 7 rfl (by decide)
  have ha := h.2 (by decide)
  exact ⟨rfl, by decide, ha.1, ha.2⟩

/-- Claim C4: per frame-end controller call while enabled: over budget, the
quota decreases by quotaStep but never below 8 (it becomes exactly
old - quotaStep when that is at least 8, and exactly the floor 8 otherwise)
and the cooldown increases by cooldownStep but never above 10 (exactly
old + cooldownStep below the ceiling, exactly 10 otherwise); otherwise the
quota increases by quotaStep but never above 200 and the cooldown decreases
by cooldownStep but never below 1, with the values pinned the same way.
While disabled the controller leaves the state unchanged. -/
theorem c4_controller_step (cfg : Config) (s : OptState) (elapsed : Int) :
    (cfg.enabled = true →
      (cfg.targetTickMs < elapsed →
        8 ≤ (levelTick cfg s elapsed).dynMaxPerTick ∧
        (8 ≤ s.dynMaxPerTick - cfg.maxPerTickStep →
          (levelTick cfg s elapsed).dynMaxPerTick =
            s.dynMaxPerTick - cfg.maxPerTickStep) ∧
        (s.dynMaxPerTick - cfg.maxPerTickStep < 8 →
          (levelTick cfg s elapsed).dynMaxPerTick = 8) ∧
        (levelTick cfg s elapsed).dynCooldownTicks ≤ 10 ∧
        (s.dynCooldownTicks + cfg.cooldownTicksStep ≤ 10 →
          (levelTick cfg s elapsed).dynCooldownTicks =
            s.dynCooldownTicks + cfg.cooldownTicksStep) ∧
        (10 < s.dynCooldownTicks + cfg.cooldownTicksStep →
          (levelTick cfg s elapsed).dynCooldownTicks = 10)) ∧
      (elapsed ≤ cfg.targetTickMs →
        (levelTick cfg s elapsed).dynMaxPerTick ≤ 200 ∧
        (s.dynMaxPerTick + cfg.maxPerTickStep ≤ 200 →
          (levelTick cfg s elapsed).dynMaxPerTick =
            s.dynMaxPerTick + cfg.maxPerTickStep) ∧
        (200 < s.dynMaxPerTick + cfg.maxPerTickStep →
          (levelTick cfg s elapsed).dynMaxPerTick = 200) ∧
        1 ≤ (levelTick cfg s elapsed).dynCooldownTicks ∧
        (1 ≤ s.dynCooldownTicks - cfg.cooldownTicksStep →
          (levelTick cfg s elapsed).dynCooldownTicks =
            s.dynCooldownTicks - cfg.cooldownTicksStep) ∧
        (s.dynCooldownTicks - cfg.cooldownTicksStep < 1 →
          (levelTick cfg s elapsed).dynCooldownTicks = 1))) ∧
    (cfg.enabled = false → levelTick cfg s elapsed = s) := by
  refine ⟨fun he => ⟨fun hover => ?_, fun hunder => ?_⟩, fun hd => ?_⟩
  · have hEq : levelTick cfg s elapsed =
        { s with
            dynMaxPerTick := max 8 (s.dynMaxPerTick - cfg.maxPerTickStep)
            dynCooldownTicks :=
              min 10 (s.dynCooldownTicks + cfg.cooldownTicksStep) } := by
      simp [levelTick, he, hover]
    rw [hEq]
    exact ⟨le_max_left _ _, fun h => max_eq_right h, fun h => max_eq_left h.le,
      min_le_left _ _, fun h => min_eq_right h, fun h => min_eq_left h.le⟩
  · have hno : ¬(cfg.targetTickMs < elapsed) := not_lt.mpr hunder
    have hEq : levelTick cfg s elapsed =
        { s with
            dynMaxPerTick := min 200 (s.dynMaxPerTick + cfg.maxPerTickStep)
            dynCooldownTicks :=
              max 1 (s.dynCooldownTicks - cfg.cooldownTicksStep) } := by
      simp [levelTick, he, hno]
    rw [hEq]
    exact ⟨min_le_left _ _, fun h => min_eq_right h, fun h => min_eq_left h.le,
      le_max_left _ _, fun h => max_eq_right h, fun h => max_eq_left h.le⟩
  · simp [levelTick, hd]

def c4s : OptState := { initState with dynMaxPerTick := 9 }

/-- Witness for C4: an over-budget frame at quota 9 with step 2 pins the
quota at the floor 8 (since 9 - 2 < 8) and raises the cooldown to exactly
2 + 1 = 3. -/
theorem c4_controller_step_w :
    cfg0.enabled = true ∧ cfg0.targetTickMs < 60 ∧
    c4s.dynMaxPerTick - cfg0.maxPerTickStep < 8 ∧
    (levelTick cfg0 c4s 60).dynMaxPerTick = 8 ∧
    (levelTick cfg0 c4s 60).dynCooldownTicks = 3 := by
  have h := ((c4_controller_step cfg0 c4s 60).1 rfl).1 (by decide)
  exact ⟨rfl, by decide, by decide, h.2.2.1 (by decide),
    (h.2.2.2.2.1 (by decide)).trans (by decide)⟩

/-! ### Sweep lemmas -/

theorem mem_sweepStore_iff (t m : Nat) (st : List (Nat × Nat)) (p : Nat × Nat)
    (ht : t < 2 ^ 64) (hv : ∀ q ∈ st, q.2 ≤ t) :
    p ∈ sweepStore t m st ↔ p ∈ st ∧ t - p.2 ≤ m := by
  simp only [sweepStore, List.mem_filter, decide_eq_true_eq]
  constructor
  · rintro ⟨hp, hc⟩
    exact ⟨hp, by rwa [u64sub_eq_sub t p.2 (hv p hp) ht] at hc⟩
  · rintro ⟨hp, hc⟩
    exact ⟨hp, by rwa [u64sub_eq_sub t p.2 (hv p hp) ht]⟩

theorem sweep_filter_length (t m : Nat) (st : List (Nat × Nat)) :
    sweepRemoved t m st + (sweepStore t m st).length = st.length := by
  induction st with
  | nil => rfl
  | cons p rest ih =>
    simp only [sweepStore, sweepRemoved, List.filter_cons] at ih ⊢
    by_cases h : m < u64sub t p.2
    · simp only [decide_eq_true_eq, if_pos h, if_neg (not_le.mpr h),
        List.length_cons]
      omega
    · simp only [decide_eq_true_eq, if_neg h, if_pos (not_lt.mp h),
        List.length_cons]
      omega

/-- Claim C5: after the sweep at `currentTick` with threshold `maxAge`, the
store contains no entry with `currentTick - lastTick > maxAge`; every entry
with age at most `maxAge` (the boundary `> maxAge` is strict, so age exactly
`maxAge` is retained) survives, and the expired-cleaned counter of the
frame-boundary state that triggered the sweep increases by exactly the
number of removed entries. -/
theorem c5_sweep_correct (t maxAge : Nat) (st : List (Nat × Nat))
    (ht : t < 2 ^ 64) (hv : ∀ q ∈ st, q.2 ≤ t) :
    (∀ p, p ∈ sweepStore t maxAge st ↔ p ∈ st ∧ t - p.2 ≤ maxAge) ∧
    (∀ p, p ∈ st → maxAge < t - p.2 → p ∉ sweepStore t maxAge st) ∧
    sweepRemoved t maxAge st + (sweepStore t maxAge st).length = st.length ∧
    (∀ (cfg : Config) (s : OptState), s.lastItemTick = st →
      intToU64 cfg.maxExpiredAge = maxAge →
      cfg.cleanupIntervalTicks ≤ s.cleanupCounter + 1 →
      (frameBoundary cfg s t).lastItemTick = sweepStore t maxAge st ∧
      (frameBoundary cfg s t).totalExpiredCleaned =
        s.totalExpiredCleaned + sweepRemoved t maxAge st) := by
  refine ⟨fun p => mem_sweepStore_iff t maxAge st p ht hv, ?_,
    sweep_filter_length t maxAge st, ?_⟩
  · intro p hp hgt hmem
    have hm := (mem_sweepStore_iff t maxAge st p ht hv).mp hmem
    omega
  · intro cfg s hst hm hcc
    simp only [frameBoundary]
    rw [if_pos hcc]
    constructor
    · dsimp only
      rw [hst, hm]
    · dsimp only
      rw [hst, hm]

/-- Witness for C5: sweeping `[(1, 50), (2, 200)]` at tick 700 with
threshold 600 removes exactly the entry of age 650 and keeps the entry of
age 500. -/
theorem c5_sweep_correct_w :
    (700 : Nat) < 2 ^ 64 ∧
    (2, 200) ∈ sweepStore 700 600 [(1, 50), (2, 200)] ∧
    ¬(1, 50) ∈ sweepStore 700 600 [(1, 50), (2, 200)] ∧
    sweepRemoved 700 600 [(1, 50), (2, 200)] = 1 := by
  have h := c5_sweep_correct 700 600 [(1, 50), (2, 200)] (by decide) (by decide)
  exact ⟨by decide, (h.1 (2, 200)).mpr ⟨by decide, by decide⟩,
    h.2.1 (1, 50) (by decide) (by decide), by decide⟩

/-- A configuration the loader accepts unchanged (all clamps satisfied) whose
quota step is 21. -/
def cfgBig : Config := { maxPerTickStep := 21 }

/-- Counterexample to C6 as stated: with the loaded configuration `cfgBig`
(a fixed point of the load-time normalization, so a legal loaded
configuration), the reachable state right after `enable()` has
dynMaxPerTick = 21 * 10 = 210, outside [8, 200] — `enable` applies no upper
clamp to `step * 10`. -/
theorem c6_range_cex :
    normalizeConfig cfgBig = cfgBig ∧
    Reachable cfgBig (enableOp cfgBig initState) ∧
    (enableOp cfgBig initState).dynMaxPerTick = 210 ∧
    ¬((enableOp cfgBig initState).dynMaxPerTick ≤ 200) :=
  ⟨by decide, Reachable.enable Reachable.init, by decide, by decide⟩

/-- Claim C6 (amended): for every loaded configuration whose steps
additionally satisfy maxPerTickStep ≤ 20 and cooldownTicksStep ≤ 5 (so that
`enable`'s initialization `step*10`, `cooldownStep*2` itself lands inside
the clamp ranges; the load-time clamps only guarantee the lower bounds
1 ≤ step), every reachable state of the core has dynMaxPerTick in [8, 200]
and dynCooldownTicks in [1, 10].  Without those upper bounds the claim fails
(c6_range_cex). -/
theorem c6_range_inv (cfg : Config) (s : OptState)
    (h1 : 1 ≤ cfg.maxPerTickStep) (h2 : cfg.maxPerTickStep ≤ 20)
    (h3 : 1 ≤ cfg.cooldownTicksStep) (h4 : cfg.cooldownTicksStep ≤ 5)
    (hr : Reachable cfg s) :
    8 ≤ s.dynMaxPerTick ∧ s.dynMaxPerTick ≤ 200 ∧
    1 ≤ s.dynCooldownTicks ∧ s.dynCooldownTicks ≤ 10 := by
  induction hr with
  | init => exact ⟨by decide, by decide, by decide, by decide⟩
  | enable hr ih =>
    simp only [enableOp]
    refine ⟨?_, ?_, ?_, ?_⟩ <;> omega
  | disable hr ih => simpa [disableOp] using ih
  | gate id t hr ih => simpa [gate_dynMax, gate_dynCooldown] using ih
  | despawn id hr ih => simpa [despawnOp_dynMax, despawnOp_dynCooldown] using ih
  | levelTick elapsed hr ih =>
    rcases ih with ⟨i1, i2, i3, i4⟩
    unfold levelTick
    split
    · exact ⟨i1, i2, i3, i4⟩
    · split
      · exact ⟨le_max_left _ _, max_le (by norm_num) (by omega),
          le_min (by norm_num) (by omega), min_le_left _ _⟩
      · exact ⟨le_min (by norm_num) (by omega), min_le_left _ _,
          le_max_left _ _, max_le (by norm_num) (by omega)⟩

/-- Witness for the amended C6 at the default configuration and the initial
state. -/
theorem c6_range_inv_w :
    1 ≤ cfg0.maxPerTickStep ∧ cfg0.maxPerTickStep ≤ 20 ∧
    1 ≤ cfg0.cooldownTicksStep ∧ cfg0.cooldownTicksStep ≤ 5 ∧
    (8 ≤ initState.dynMaxPerTick ∧ initState.dynMaxPerTick ≤ 200 ∧
      1 ≤ initState.dynCooldownTicks ∧ initState.dynCooldownTicks ≤ 10) :=
  ⟨by decide, by decide, by decide, by decide,
    c6_range_inv cfg0 initState (by decide) (by decide) (by decide) (by decide)
      Reachable.init⟩

def rawNeg : Config := { initialMapReserve := -1 }

/-- Counterexample to C7 as stated: a parsed configuration with
initialMapReserve = -1 passes load-time normalization unchanged — the code
replaces the reserve only when it is exactly 0 (`== 0`, line 54), so the
loaded value is -1, not at least 1. -/
theorem c7_config_clamp_cex :
    (normalizeConfig rawNeg).initialMapReserve = -1 ∧
    ¬(1 ≤ (normalizeConfig rawNeg).initialMapReserve) := by
  decide

/-- Claim C7 (amended): after loadConfig, for every parsed configuration,
cleanupIntervalTicks, maxExpiredAge, maxPerTickStep, cooldownTicksStep and
targetTickMs are at least 1, with values below 1 replaced by 100, 600, 1, 1
and 50 respectively and in-range values kept; initialMapReserve is replaced
by 500 only when it is exactly 0 and is otherwise kept, so negative reserve
values survive loading (c7_config_clamp_cex refutes the blanket "at least 1"
of the original claim).  Loading never rejects a configuration: the
normalization is total. -/
theorem c7_config_clamp (c : Config) :
    (1 ≤ (normalizeConfig c).cleanupIntervalTicks ∧
      (c.cleanupIntervalTicks < 1 →
        (normalizeConfig c).cleanupIntervalTicks = 100) ∧
      (1 ≤ c.cleanupIntervalTicks →
        (normalizeConfig c).cleanupIntervalTicks = c.cleanupIntervalTicks)) ∧
    (1 ≤ (normalizeConfig c).maxExpiredAge ∧
      (c.maxExpiredAge < 1 → (normalizeConfig c).maxExpiredAge = 600) ∧
      (1 ≤ c.maxExpiredAge →
        (normalizeConfig c).maxExpiredAge = c.maxExpiredAge)) ∧
    (1 ≤ (normalizeConfig c).maxPerTickStep ∧
      (c.maxPerTickStep < 1 → (normalizeConfig c).maxPerTickStep = 1) ∧
      (1 ≤ c.maxPerTickStep →
        (normalizeConfig c).maxPerTickStep = c.maxPerTickStep)) ∧
    (1 ≤ (normalizeConfig c).cooldownTicksStep ∧
      (c.cooldownTicksStep < 1 → (normalizeConfig c).cooldownTicksStep = 1) ∧
      (1 ≤ c.cooldownTicksStep →
        (normalizeConfig c).cooldownTicksStep = c.cooldownTicksStep)) ∧
    (1 ≤ (normalizeConfig c).targetTickMs ∧
      (c.targetTickMs < 1 → (normalizeConfig c).targetTickMs = 50) ∧
      (1 ≤ c.targetTickMs →
        (normalizeConfig c).targetTickMs = c.targetTickMs)) ∧
    ((c.initialMapReserve = 0 → (normalizeConfig c).initialMapReserve = 500) ∧
      (c.initialMapReserve ≠ 0 →
        (normalizeConfig c).initialMapReserve = c.initialMapReserve)) := by
  refine ⟨⟨?_, fun h => ?_, fun h => ?_⟩, ⟨?_, fun h => ?_, fun h => ?_⟩,
    ⟨?_, fun h => ?_, fun h => ?_⟩, ⟨?_, fun h => ?_, fun h => ?_⟩,
    ⟨?_, fun h => ?_, fun h => ?_⟩, fun h => ?_, fun h => ?_⟩ <;>
    simp only [normalizeConfig] <;> split <;> omega

def rawBad : Config :=
  { cleanupIntervalTicks := 0
    maxExpiredAge := -3
    targetTickMs := 0
    maxPerTickStep := 0
    cooldownTicksStep := -2
    initialMapReserve := 0 }

/-- Witness for the amended C7 at an all-invalid parsed configuration. -/
theorem c7_config_clamp_w :
    rawBad.cleanupIntervalTicks < 1 ∧
    (normalizeConfig rawBad).cleanupIntervalTicks = 100 ∧
    (normalizeConfig rawBad).initialMapReserve = 500 := by
  have h := c7_config_clamp rawBad
  exact ⟨by decide, h.1.2.1 (by decide), h.2.2.2.2.2.1 (by decide)⟩

/-- Claim C8: disable() clears the timestamp store and resets the frame
state, the sweep cadence counter and all telemetry counters to zero while
preserving the controller fields; enable() then sets the controller state to
(quotaStep*10, cooldownStep*2), so disable-then-enable yields exactly that
controller state regardless of pre-disable values.  (The configuration is
not part of the mutable core state and is untouched by construction.) -/
theorem c8_disable_enable (cfg : Config) (s : OptState) :
    disableOp s =
      { lastItemTick := []
        processedThisTick := 0
        lastTickId := 0
        cleanupCounter := 0
        dynMaxPerTick := s.dynMaxPerTick
        dynCooldownTicks := s.dynCooldownTicks
        totalProcessed := 0
        totalCooldownSkipped := 0
        totalThrottleSkipped := 0
        totalDespawnCleaned := 0
        totalExpiredCleaned := 0 } ∧
    enableOp cfg (disableOp s) =
      { lastItemTick := []
        processedThisTick := 0
        lastTickId := 0
        cleanupCounter := 0
        dynMaxPerTick := cfg.maxPerTickStep * 10
        dynCooldownTicks := cfg.cooldownTicksStep * 2
        totalProcessed := 0
        totalCooldownSkipped := 0
        totalThrottleSkipped := 0
        totalDespawnCleaned := 0
        totalExpiredCleaned := 0 } :=
  ⟨rfl, rfl⟩

theorem lookupStore_afterBoundary_none (cfg : Config) (s : OptState)
    (t id : Nat) (h : lookupStore id s.lastItemTick = none) :
    lookupStore id (afterBoundary cfg s t).lastItemTick = none := by
  unfold afterBoundary frameBoundary
  dsimp only
  split
  · split
    · exact lookupStore_filter_none id _ s.lastItemTick h
    · exact h
  · exact h

theorem gateCore_absent (b : OptState) (id t : Nat)
    (h : lookupStore id b.lastItemTick = none) :
    (gateCore b id t).1 = Decision.Allow ∨
    (gateCore b id t).1 = Decision.DenyThrottle := by
  have hemp := emplaceStore_of_lookup_none id 0 b.lastItemTick h
  simp only [gateCore, hemp]
  split
  · exact Or.inr rfl
  · exact Or.inl rfl

theorem lookupStore_despawn_self (cfg : Config) (s : OptState) (id : Nat)
    (he : cfg.enabled = true) (h : (s.lastItemTick.map Prod.fst).Nodup) :
    lookupStore id (despawnOp cfg s id).lastItemTick = none := by
  unfold despawnOp
  rw [if_pos he]
  split
  · exact lookupStore_eraseStore_self id s.lastItemTick h
  · next hc => exact Option.not_isSome_iff_eq_none.mp hc

/-- Claim C9: a gate call for an entity id absent from the store — whether
never seen before or just removed by the entity-destroyed lifecycle hook —
is never DenyCooldown: it is either Allow or DenyThrottle.  (The Nodup
hypothesis states that the association-list embedding of the unordered_map
has unique keys, which every genuine map state satisfies.) -/
theorem c9_absent_no_cooldown (cfg : Config) (s : OptState) (id t : Nat)
    (h1 : cfg.enabled = true) :
    (lookupStore id s.lastItemTick = none →
      (gate cfg s id t).1 = Decision.Allow ∨
      (gate cfg s id t).1 = Decision.DenyThrottle) ∧
    ((s.lastItemTick.map Prod.fst).Nodup →
      (gate cfg (despawnOp cfg s id) id t).1 = Decision.Allow ∨
      (gate cfg (despawnOp cfg s id) id t).1 = Decision.DenyThrottle) := by
  constructor
  · intro h
    have hb := lookupStore_afterBoundary_none cfg s t id h
    have hg : gate cfg s id t = gateCore (afterBoundary cfg s t) id t := by
      simp [gate, h1]
    rw [hg]
    exact gateCore_absent (afterBoundary cfg s t) id t hb
  · intro hnd
    have hd := lookupStore_despawn_self cfg s id h1 hnd
    have hb := lookupStore_afterBoundary_none cfg (despawnOp cfg s id) t id hd
    have hg : gate cfg (despawnOp cfg s id) id t =
        gateCore (afterBoundary cfg (despawnOp cfg s id) t) id t := by
      simp [gate, h1]
    rw [hg]
    exact gateCore_absent (afterBoundary cfg (despawnOp cfg s id) t) id t hb

def c9s : OptState := { initState with lastItemTick := [(8, 3)], lastTickId := 5 }

/-- Witness for C9: a brand-new entity id at a concrete state is allowed,
not cooldown-denied. -/
theorem c9_absent_no_cooldown_w :
    cfg0.enabled = true ∧ lookupStore 9 c9s.lastItemTick = none ∧
    ((gate cfg0 c9s 9 5).1 = Decision.Allow ∨
      (gate cfg0 c9s 9 5).1 = Decision.DenyThrottle) :=
  ⟨rfl, by decide, (c9_absent_no_cooldown cfg0 c9s 9 5 rfl).1 (by decide)⟩

/-- Claim C10: disable() leaves dynMaxPerTick and dynCooldownTicks at their
pre-disable values (they are reinitialized only by the next enable()), while
clearing the store and zeroing the frame state, sweep cadence counter and
every telemetry counter. -/
theorem c10_disable_preserves_controller (s : OptState) :
    (disableOp s).dynMaxPerTick = s.dynMaxPerTick ∧
    (disableOp s).dynCooldownTicks = s.dynCooldownTicks ∧
    (disableOp s).lastItemTick = [] ∧
    (disableOp s).processedThisTick = 0 ∧
    (disableOp s).lastTickId = 0 ∧
    (disableOp s).cleanupCounter = 0 ∧
    (disableOp s).totalProcessed = 0 ∧
    (disableOp s).totalCooldownSkipped = 0 ∧
    (disableOp s).totalThrottleSkipped = 0 ∧
    (disableOp s).totalDespawnCleaned = 0 ∧
    (disableOp s).totalExpiredCleaned = 0 :=
  ⟨rfl, rfl, rfl, rfl, rfl, rfl, rfl, rfl, rfl, rfl, rfl⟩

end TpsOpt
